import Mathlib

/-!
Verification of the AG-UI FastAPI gateway (`server/ag_ui_fastapi_gemini.py`).

The file shallowly embeds the gateway's data model and request handler:
JSON-ish Python runtime values, the `DocumentState` pydantic model and its
validation, the state reconciler embedded in `run_agent`, the endpoint's
decode/error/stream wiring, the agent tools, and the per-run system
instructions.  Theorems below settle the specified properties of each part.
-/

/-- A JSON-like Python runtime value, as produced by deserialising a request
body: the universe of values that can appear inside the decoded `state`
mapping and inside `frontend_tools` descriptors. -/
inductive JVal where
  | null : JVal
  | bool (b : Bool) : JVal
  | int (n : Int) : JVal
  | str (s : String) : JVal
  | arr (xs : List JVal) : JVal
  | obj (kvs : List (String × JVal)) : JVal

/-- A Python `dict` with string keys, as used for frontend tool
descriptors (`list[dict]` in the source). -/
abbrev JDict := List (String × JVal)

/-- `DocumentState(BaseModel)`: shared document state synchronized with the
frontend via AG-UI.  `document: str = ""` and
`frontend_tools: list[dict] = []`. -/
structure DocumentState where
  document : String
  frontend_tools : List JDict

/-- The default `DocumentState()`: empty document, no frontend tools. -/
def DocumentState.default : DocumentState := ⟨"", []⟩

/-- First-match association lookup in a string-keyed mapping, modelling
access to a Python dict key (real dicts have unique keys). -/
def dictGet? (kvs : List (String × JVal)) (k : String) : Option JVal :=
  match kvs with
  | [] => none
  | (k₀, v₀) :: rest => if k₀ = k then some v₀ else dictGet? rest k

/-- Pydantic validation of the `document: str` field: absent means the
default `""`; a string is accepted as-is; any other runtime type is a
validation error (pydantic v2 does not coerce non-strings to `str`). -/
def validateDocumentField : Option JVal → Option String
  | none => some ""
  | some (.str s) => some s
  | some _ => none

/-- Pydantic validation of one `frontend_tools` element: must be a dict. -/
def validateToolElem : JVal → Option JDict
  | .obj kvs => some kvs
  | _ => none

/-- Pydantic validation of the `frontend_tools: list[dict]` field: absent
means the default `[]`; a list is accepted when every element is a dict;
anything else is a validation error. -/
def validateToolsField : Option JVal → Option (List JDict)
  | none => some []
  | some (.arr xs) => xs.mapM validateToolElem
  | some _ => none

/-- `DocumentState(**kvs)` and `DocumentState.model_validate(dict)`:
construct a `DocumentState` from a mapping's fields.  Extra keys are
ignored, missing keys default, and a field value of the wrong shape makes
the whole construction fail (pydantic raises `ValidationError`, here
`none`). -/
def mkDocState (kvs : List (String × JVal)) : Option DocumentState :=
  match validateDocumentField (dictGet? kvs "document"),
        validateToolsField (dictGet? kvs "frontend_tools") with
  | some d, some t => some ⟨d, t⟩
  | _, _ => none

/-- A Python runtime value that the decoded run input's `state` attribute
can hold: `None` (also covering an absent attribute, since the source reads
it with `getattr(run_input, 'state', None)`), a JSON scalar, list or dict,
or an already-typed `DocumentState` instance. -/
inductive PyVal where
  | pynone : PyVal
  | bool (b : Bool) : PyVal
  | int (n : Int) : PyVal
  | str (s : String) : PyVal
  | list (xs : List JVal) : PyVal
  | dict (kvs : List (String × JVal)) : PyVal
  | docState (d : DocumentState) : PyVal

/-- `DocumentState.model_validate(v)` on an arbitrary runtime value:
succeeds on a mapping (field-wise validation) and on an instance of the
model itself; every other runtime type raises `ValidationError` (`none`). -/
def modelValidate : PyVal → Option DocumentState
  | .dict kvs => mkDocState kvs
  | .docState d => some d
  | _ => none

/-- The state reconciler inlined in `run_agent` (the `doc_state` block):
start from `DocumentState()`; if the state value is a dict, build
`DocumentState(**state_val)`; else if it is already a `DocumentState`, use
it as-is; else if it is not `None`, try `DocumentState.model_validate`;
any exception in those branches falls back to the default state. -/
def reconcileState (state_val : PyVal) : DocumentState :=
  match state_val with
  | .dict kvs => (mkDocState kvs).getD DocumentState.default
  | .docState d => d
  | .pynone => DocumentState.default
  | v => (modelValidate v).getD DocumentState.default

/-- C1: the state reconciler follows strict first-match precedence: absent
or `None` state gives the default `DocumentState`; a mapping is constructed
field-wise with extras ignored and missing fields defaulted; an existing
`DocumentState` is used as-is; any other non-null value goes through
structural validation; and a validation failure in the non-default branches
(`mkDocState`/`modelValidate` returning `none`) yields the default state.
Includes the spec's concrete cases: missing state gives
`⟨"", []⟩` and `\x7b"document": "hello"\x7d` gives `⟨"hello", []⟩`. -/
theorem reconciler_strict_precedence :
    reconcileState .pynone = DocumentState.default ∧
    (∀ kvs : List (String × JVal),
      reconcileState (.dict kvs) = (mkDocState kvs).getD DocumentState.default) ∧
    (∀ d : DocumentState, reconcileState (.docState d) = d) ∧
    (∀ v : PyVal, v ≠ .pynone → (∀ kvs, v ≠ .dict kvs) →
      (∀ d, v ≠ .docState d) →
      reconcileState v = (modelValidate v).getD DocumentState.default) ∧
    DocumentState.default = ⟨"", []⟩ ∧
    reconcileState (.dict [("document", .str "hello")]) = ⟨"hello", []⟩ := by
  refine ⟨rfl, fun kvs => rfl, fun d => rfl, fun v hn hd hds => ?_, rfl, rfl⟩
  cases v with
  | pynone => exact absurd rfl hn
  | dict kvs => exact absurd rfl (hd kvs)
  | docState d => exact absurd rfl (hds d)
  | bool b => rfl
  | int n => rfl
  | str s => rfl
  | list xs => rfl

/-- Witness for C1: the fall-through branch applied at the concrete
non-null, non-dict, non-`DocumentState` value `42`, whose structural
validation fails, so the reconciler yields the default state. -/
theorem reconciler_strict_precedence_witness :
    reconcileState (.int 42) = DocumentState.default :=
  (reconciler_strict_precedence.2.2.2.1 (.int 42)
    (fun h => nomatch h) (fun _ h => nomatch h) (fun _ h => nomatch h)).trans
    (by rfl)

/-- `SSE_CONTENT_TYPE` from `pydantic_ai.ui`: the server-sent-event media
type the gateway forces on every streamed response. -/
def SSE_CONTENT_TYPE : String := "text/event-stream"

/-- `HTTPStatus.UNPROCESSABLE_ENTITY` from Python's `http` module. -/
def HTTPStatus.UNPROCESSABLE_ENTITY : Nat := 422

/-- The decoded `RunAgentInput`: conversation messages plus the optional
opaque `state` payload (`PyVal.pynone` both for an explicit `null` and for
an absent attribute, since the handler reads it with
`getattr(run_input, 'state', None)`).  Other run parameters play no role in
the handler and are not modelled. -/
structure RunInput where
  messages : List JVal
  state : PyVal

/-- A Python exception raised by `AGUIAdapter.build_run_input`: either a
pydantic `ValidationError` (carrying its serialized form `e.json()`) or any
other exception type. -/
inductive PyExc where
  | validationError (json : String) : PyExc
  | otherExc (msg : String) : PyExc

/-- An inbound HTTP request as the handler sees it: the client's `Accept`
header and the awaited raw body bytes. -/
structure Request where
  accept_header : String
  body : List Nat

/-- The response value `run_agent` returns: either a plain `Response`
(status code, media type, content) or a `StreamingResponse` (status 200 by
construction, media type, and the reconciled dependency state handed to
`adapter.run_stream`, from which the encoded event stream is produced). -/
inductive GatewayResponse where
  | plain (status_code : Nat) (media_type : String) (content : String) : GatewayResponse
  | streaming (status_code : Nat) (media_type : String) (deps : DocumentState) : GatewayResponse

/-- Whether a response is a streaming response. -/
def GatewayResponse.isStreaming : GatewayResponse → Bool
  | .plain _ _ _ => false
  | .streaming _ _ _ => true

/-- The `POST /ag-ui` handler `run_agent`, parameterised by the external
decoder `AGUIAdapter.build_run_input` (a black box that returns a decoded
`RunInput` or raises).  It forces the SSE media type, decodes the body,
turns a `ValidationError` into a 422 JSON response, reconciles the state
payload into `DocumentState` dependencies, and otherwise returns the
streaming response; an exception of any other type is not caught and
propagates (the `Except.error` result). -/
def run_agent (build_run_input : List Nat → Except PyExc RunInput)
    (request : Request) : Except String GatewayResponse :=
  let accept := SSE_CONTENT_TYPE
  match build_run_input request.body with
  | .error (.validationError e) =>
      .ok (.plain HTTPStatus.UNPROCESSABLE_ENTITY "application/json" e)
  | .error (.otherExc msg) => .error msg
  | .ok run_input =>
      let doc_state := reconcileState run_input.state
      .ok (.streaming 200 accept doc_state)

/-- C2: when decoding the body raises a `ValidationError`, the handler
returns a plain HTTP 422 response with JSON media type whose content is the
serialized validation error, and the response is not a streaming response:
no agent run or stream object is created. -/
theorem validation_failure_yields_422
    (build_run_input : List Nat → Except PyExc RunInput) (request : Request)
    (e : String)
    (h : build_run_input request.body = .error (.validationError e)) :
    run_agent build_run_input request =
      .ok (.plain HTTPStatus.UNPROCESSABLE_ENTITY "application/json" e) ∧
    ∀ resp : GatewayResponse,
      run_agent build_run_input request = .ok resp → resp.isStreaming = false := by
  have hr : run_agent build_run_input request =
      .ok (.plain HTTPStatus.UNPROCESSABLE_ENTITY "application/json" e) := by
    unfold run_agent
    rw [h]
  refine ⟨hr, fun resp hresp => ?_⟩
  rw [hr] at hresp
  cases hresp
  rfl

/-- Witness for C2: a decoder that rejects every body makes the handler
answer with the 422 JSON error response. -/
theorem validation_failure_yields_422_witness :
    run_agent (fun _ => .error (.validationError "bad field")) ⟨"text/html", []⟩ =
      .ok (.plain HTTPStatus.UNPROCESSABLE_ENTITY "application/json" "bad field") :=
  (validation_failure_yields_422 (fun _ => .error (.validationError "bad field"))
    ⟨"text/html", []⟩ "bad field" rfl).1

/-- A malformed `state` payload in the sense of the spec: a string, or a
mapping whose fields fail structural validation. -/
def stateMalformed (v : PyVal) : Prop :=
  (∃ s, v = .str s) ∨ (∃ kvs, v = .dict kvs ∧ mkDocState kvs = none)

/-- C3: when the body decodes but its `state` payload is malformed, the
reconciliation failure is fully absorbed: the handler still returns the
HTTP 200 streaming response, with the default `DocumentState` as the run's
dependencies, and never an error response. -/
theorem malformed_state_absorbed_stream_200
    (build_run_input : List Nat → Except PyExc RunInput) (request : Request)
    (run_input : RunInput)
    (hok : build_run_input request.body = .ok run_input)
    (hm : stateMalformed run_input.state) :
    run_agent build_run_input request =
      .ok (.streaming 200 SSE_CONTENT_TYPE DocumentState.default) := by
  unfold run_agent
  rw [hok]
  show (Except.ok (GatewayResponse.streaming 200 SSE_CONTENT_TYPE
      (reconcileState run_input.state)) : Except String GatewayResponse) =
    Except.ok (GatewayResponse.streaming 200 SSE_CONTENT_TYPE DocumentState.default)
  rcases hm with ⟨s, hs⟩ | ⟨kvs, hkvs, hnone⟩
  · rw [hs]
    rfl
  · rw [hkvs]
    show (Except.ok (GatewayResponse.streaming 200 SSE_CONTENT_TYPE
        ((mkDocState kvs).getD DocumentState.default)) : Except String GatewayResponse) =
      Except.ok (GatewayResponse.streaming 200 SSE_CONTENT_TYPE DocumentState.default)
    rw [hnone]
    rfl

/-- Witness for C3: a run input whose `state` is the string `"bad"` still
yields the 200 SSE streaming response with default state. -/
theorem malformed_state_absorbed_stream_200_witness :
    run_agent (fun _ => .ok ⟨[], .str "bad"⟩) ⟨"application/json", []⟩ =
      .ok (.streaming 200 SSE_CONTENT_TYPE DocumentState.default) :=
  malformed_state_absorbed_stream_200 (fun _ => .ok ⟨[], .str "bad"⟩)
    ⟨"application/json", []⟩ ⟨[], .str "bad"⟩ rfl (Or.inl ⟨"bad", rfl⟩)

/-- C4: for every successfully decoded request the response media type is
the server-sent-event content type, and the client's `Accept` header has no
influence: the handler's result is identical under any two `Accept`
values. -/
theorem accept_header_ignored_sse_forced
    (build_run_input : List Nat → Except PyExc RunInput) (body : List Nat)
    (a₁ a₂ : String) (run_input : RunInput)
    (h : build_run_input body = .ok run_input) :
    run_agent build_run_input ⟨a₁, body⟩ =
      .ok (.streaming 200 SSE_CONTENT_TYPE (reconcileState run_input.state)) ∧
    run_agent build_run_input ⟨a₁, body⟩ = run_agent build_run_input ⟨a₂, body⟩ := by
  constructor
  · unfold run_agent
    rw [show (Request.mk a₁ body).body = body from rfl, h]
  · unfold run_agent
    rfl

/-- Witness for C4: with a fixed decoder, requests that differ only in the
`Accept` header receive the same SSE streaming response. -/
theorem accept_header_ignored_sse_forced_witness :
    run_agent (fun _ => .ok ⟨[], .pynone⟩) ⟨"application/json", [1, 2]⟩ =
      .ok (.streaming 200 SSE_CONTENT_TYPE (reconcileState PyVal.pynone)) ∧
    run_agent (fun _ => .ok ⟨[], .pynone⟩) ⟨"application/json", [1, 2]⟩ =
      run_agent (fun _ => .ok ⟨[], .pynone⟩) ⟨"text/html", [1, 2]⟩ :=
  accept_header_ignored_sse_forced (fun _ => .ok ⟨[], .pynone⟩) [1, 2]
    "application/json" "text/html" ⟨[], .pynone⟩ rfl

/-- C9: the handler produces the 422 JSON response exactly when the decoder
raises a pydantic `ValidationError`; an exception of any other type raised
while building the run input is not caught and propagates out of the
handler instead of becoming a 422 response. -/
theorem only_validation_error_gives_422
    (build_run_input : List Nat → Except PyExc RunInput) (request : Request) :
    ((∃ e, run_agent build_run_input request =
        .ok (.plain HTTPStatus.UNPROCESSABLE_ENTITY "application/json" e)) ↔
      (∃ e, build_run_input request.body = .error (.validationError e))) ∧
    (∀ msg, build_run_input request.body = .error (.otherExc msg) →
      run_agent build_run_input request = .error msg) := by
  constructor
  · constructor
    · rintro ⟨e, he⟩
      cases hb : build_run_input request.body with
      | ok ri =>
        unfold run_agent at he
        rw [hb] at he
        cases he
      | error exc =>
        cases exc with
        | validationError e₂ => exact ⟨e₂, rfl⟩
        | otherExc m =>
          unfold run_agent at he
          rw [hb] at he
          cases he
    · rintro ⟨e, he⟩
      refine ⟨e, ?_⟩
      unfold run_agent
      rw [he]
  · intro msg h
    unfold run_agent
    rw [h]

/-- Witness for C9: a decoder raising a non-validation exception makes the
handler propagate it rather than answer 422. -/
theorem only_validation_error_gives_422_witness :
    run_agent (fun _ => .error (.otherExc "boom")) ⟨"", []⟩ = .error "boom" :=
  (only_validation_error_gives_422 (fun _ => .error (.otherExc "boom")) ⟨"", []⟩).2
    "boom" rfl

/-- Lower-case hexadecimal digit for a value below 16. -/
def hexDigitChar (n : Nat) : Char :=
  if n < 10 then Char.ofNat (48 + n) else Char.ofNat (87 + n)

/-- Four-digit lower-case hexadecimal rendering, as in `\uXXXX` escapes. -/
def hex4 (n : Nat) : String :=
  String.mk [hexDigitChar (n / 4096 % 16), hexDigitChar (n / 256 % 16),
    hexDigitChar (n / 16 % 16), hexDigitChar (n % 16)]

/-- Two-digit lower-case hexadecimal rendering, as in `\xNN` escapes. -/
def hex2 (n : Nat) : String :=
  String.mk [hexDigitChar (n / 16 % 16), hexDigitChar (n % 16)]

/-- One character of Python `repr` output for a string quoted with `quote`:
backslash and the quote character are backslash-escaped, newline, carriage
return and tab use their short escapes, other non-printable ASCII uses
`\xNN`, and everything else passes through. -/
def pyEscChar (quote : Char) (c : Char) : String :=
  if c = '\\' then "\\\\"
  else if c = quote then "\\" ++ String.singleton quote
  else if c = '\n' then "\\n"
  else if c = '\r' then "\\r"
  else if c = '\t' then "\\t"
  else if c.toNat < 32 ∨ c.toNat = 127 then "\\x" ++ hex2 c.toNat
  else String.singleton c

/-- Python `repr` escaping of a whole string body. -/
def pyEscape (quote : Char) (s : String) : String :=
  String.join (s.data.map (pyEscChar quote))

/-- Python `repr` of a `str`: single-quoted, except that a string containing
a single quote but no double quote is double-quoted. -/
def pyReprStr (s : String) : String :=
  if s.contains (Char.ofNat 39) && !(s.contains '"') then
    "\"" ++ pyEscape '"' s ++ "\""
  else
    "\x27" ++ pyEscape (Char.ofNat 39) s ++ "\x27"

mutual
/-- Python `repr`/`str` of a JSON-like runtime value, as interpolated by an
f-string: `None`, `True`/`False`, decimal integers, quoted strings,
bracketed lists and braced dicts with `, ` separators. -/
def pyReprVal : JVal → String
  | .null => "None"
  | .bool b => cond b "True" "False"
  | .int n => toString n
  | .str s => pyReprStr s
  | .arr xs => "[" ++ pyReprArrItems xs ++ "]"
  | .obj kvs => "\x7b" ++ pyReprObjItems kvs ++ "\x7d"

/-- Comma-separated `repr` of list elements. -/
def pyReprArrItems : List JVal → String
  | [] => ""
  | [x] => pyReprVal x
  | x :: xs => pyReprVal x ++ ", " ++ pyReprArrItems xs

/-- Comma-separated `repr` of dict entries (`key: value`). -/
def pyReprObjItems : List (String × JVal) → String
  | [] => ""
  | [(k, v)] => pyReprStr k ++ ": " ++ pyReprVal v
  | (k, v) :: kvs => pyReprStr k ++ ": " ++ pyReprVal v ++ ", " ++ pyReprObjItems kvs
end

/-- Python `repr` of a string-keyed dict, as an f-string renders `args`. -/
def pyReprDict (kvs : JDict) : String := pyReprVal (.obj kvs)

/-- The `execute_frontend_tool` agent tool: given the run context, a tool
name and an argument dict, it executes nothing server-side and returns the
acknowledgement f-string.  The run context's state is threaded through
unchanged to make the absence of state mutation explicit. -/
def execute_frontend_tool (ctx : DocumentState) (tool_name : String)
    (args : JDict) : String × DocumentState :=
  ("Frontend tool \x27" ++ tool_name ++ "\x27 execution requested with args: " ++
    pyReprDict args, ctx)

/-- The `sync_state_with_frontend` agent tool: takes only the run context
and returns the confirmation f-string built from the document's length.
The run context's state is threaded through unchanged. -/
def sync_state_with_frontend (ctx : DocumentState) : String × DocumentState :=
  ("State length: " ++ toString ctx.document.length, ctx)

/-- The `send_counter_events` plain tool: a constant string. -/
def send_counter_events : String := "Counter events not emitted (compat mode)"

/-- The `get_weather` plain tool: a pure function of its location. -/
def get_weather (location : String) : String :=
  "The weather in " ++ location ++ " is sunny."

/-- C6: the frontend-tool dispatch tool is a pure function of its inputs:
its acknowledgement string is the same however often it is invoked and
whatever the surrounding run state, that string embeds the requested tool
name and the rendered argument mapping, and the tool performs no state
mutation (the run state is returned unchanged) and executes nothing
server-side. -/
theorem execute_frontend_tool_pure_embeds_inputs
    (ctx ctx₂ : DocumentState) (tool_name : String) (args : JDict) :
    (execute_frontend_tool ctx tool_name args).1 =
      "Frontend tool \x27" ++ tool_name ++ "\x27 execution requested with args: " ++
        pyReprDict args ∧
    (execute_frontend_tool ctx tool_name args).1 =
      (execute_frontend_tool ctx₂ tool_name args).1 ∧
    (execute_frontend_tool ctx tool_name args).2 = ctx :=
  ⟨rfl, rfl, rfl⟩

/-- C8: the state-sync query tool takes no caller-supplied arguments beyond
the run context, mutates nothing (the context state is returned unchanged),
and returns the human-readable summary string built from the current
document's length. -/
theorem sync_state_query_spec (ctx : DocumentState) :
    (sync_state_with_frontend ctx).2 = ctx ∧
    (sync_state_with_frontend ctx).1 =
      "State length: " ++ toString ctx.document.length :=
  ⟨rfl, rfl⟩

/-- C10: noninterference of the state-sync tool: its result depends only on
the document's length, so two runs over states with equally long documents
return the identical string, whatever the documents' contents and the
frontend-tools lists. -/
theorem sync_state_noninterference (s₁ s₂ : DocumentState)
    (h : s₁.document.length = s₂.document.length) :
    (sync_state_with_frontend s₁).1 = (sync_state_with_frontend s₂).1 := by
  simp only [sync_state_with_frontend, h]

/-- Witness for C10: two states with different documents of equal length
and different tool lists get the same summary string. -/
theorem sync_state_noninterference_witness :
    (sync_state_with_frontend ⟨"ab", []⟩).1 =
      (sync_state_with_frontend ⟨"xy", [[("k", .int 1)]]⟩).1 :=
  sync_state_noninterference ⟨"ab", []⟩ ⟨"xy", [[("k", .int 1)]]⟩ (by decide)

/-- One character of `json.dumps` output (default `ensure_ascii=True`):
backslash, double quote and the short control escapes are backslash-escaped,
all other characters outside printable ASCII are `\uXXXX`-escaped (with a
surrogate pair above the basic plane), and printable ASCII passes
through. -/
def jsonEscChar (c : Char) : String :=
  if c = '\\' then "\\\\"
  else if c = '"' then "\\\""
  else if c = '\n' then "\\n"
  else if c = '\t' then "\\t"
  else if c = '\r' then "\\r"
  else if c = Char.ofNat 8 then "\\b"
  else if c = Char.ofNat 12 then "\\f"
  else if 32 ≤ c.toNat ∧ c.toNat ≤ 126 then String.singleton c
  else if c.toNat < 65536 then "\\u" ++ hex4 c.toNat
  else "\\u" ++ hex4 (55296 + (c.toNat - 65536) / 1024) ++
    "\\u" ++ hex4 (56320 + (c.toNat - 65536) % 1024)

/-- `json.dumps` escaping of a whole string body. -/
def jsonEscape (s : String) : String :=
  String.join (s.data.map jsonEscChar)

/-- Indentation prefix at nesting depth `ind` for `json.dumps(·, indent=2)`. -/
def indentStr (ind : Nat) : String :=
  String.mk (List.replicate (2 * ind) ' ')

mutual
/-- `json.dumps(v, indent=2)` at nesting depth `ind`: scalars inline; a
non-empty list or object opens its bracket, puts each element on its own
line indented one level deeper with `,` separators and `: ` after keys, and
closes the bracket at the current level; empty containers print inline. -/
def dumpsVal (ind : Nat) : JVal → String
  | .null => "null"
  | .bool b => cond b "true" "false"
  | .int n => toString n
  | .str s => "\"" ++ jsonEscape s ++ "\""
  | .arr [] => "[]"
  | .arr (x :: xs) =>
      "[\n" ++ indentStr (ind + 1) ++ dumpsVal (ind + 1) x ++
        dumpsListRest (ind + 1) xs ++ "\n" ++ indentStr ind ++ "]"
  | .obj [] => "\x7b\x7d"
  | .obj ((k, v) :: kvs) =>
      "\x7b\n" ++ indentStr (ind + 1) ++ "\"" ++ jsonEscape k ++ "\": " ++
        dumpsVal (ind + 1) v ++ dumpsObjRest (ind + 1) kvs ++
        "\n" ++ indentStr ind ++ "\x7d"

/-- Remaining list elements of an indented `json.dumps` rendering. -/
def dumpsListRest (ind : Nat) : List JVal → String
  | [] => ""
  | x :: xs => ",\n" ++ indentStr ind ++ dumpsVal ind x ++ dumpsListRest ind xs

/-- Remaining object entries of an indented `json.dumps` rendering. -/
def dumpsObjRest (ind : Nat) : List (String × JVal) → String
  | [] => ""
  | (k, v) :: kvs => ",\n" ++ indentStr ind ++ "\"" ++ jsonEscape k ++ "\": " ++
      dumpsVal ind v ++ dumpsObjRest ind kvs
end

/-- `json.dumps(frontend_tools, indent=2)`: the serialized listing of the
frontend tool descriptors interpolated into the system instructions. -/
def json_dumps_indent2 (tools : List JDict) : String :=
  dumpsVal 0 (.arr (tools.map .obj))

/-- `system_instructions(ctx)`: the per-run instructions callable.  The base
string is returned alone when the reconciled state's `frontend_tools` list
is falsy (empty); otherwise the f-string block listing the serialized
frontend tools and directing the model to the `execute_frontend_tool`
dispatch tool is appended. -/
def system_instructions (state : DocumentState) : String :=
  let base := "You are a helpful assistant."
  match state.frontend_tools with
  | [] => base
  | _ =>
    let tools_json := json_dumps_indent2 state.frontend_tools
    base ++
      "\n\nThe user has defined the following tools that can be executed on the frontend.\nTo execute one of these, use the `execute_frontend_tool` tool with the exact name and arguments.\nAvailable Frontend Tools:\n" ++
      tools_json

/-- C7: the per-run system instructions equal the fixed base string exactly
when the reconciled state's frontend-tools list is empty, and otherwise
equal the base string extended with the JSON-serialized listing of the
available frontend tools and the directions to invoke them via the
`execute_frontend_tool` dispatch tool. -/
theorem system_instructions_templating :
    (∀ state : DocumentState, state.frontend_tools = [] →
      system_instructions state = "You are a helpful assistant.") ∧
    (∀ state : DocumentState, state.frontend_tools ≠ [] →
      system_instructions state =
        "You are a helpful assistant." ++
          "\n\nThe user has defined the following tools that can be executed on the frontend.\nTo execute one of these, use the `execute_frontend_tool` tool with the exact name and arguments.\nAvailable Frontend Tools:\n" ++
          json_dumps_indent2 state.frontend_tools) := by
  constructor
  · rintro ⟨doc, tools⟩ h
    cases tools with
    | nil => rfl
    | cons t ts => exact absurd h (List.cons_ne_nil t ts)
  · rintro ⟨doc, tools⟩ h
    cases tools with
    | nil => exact absurd rfl h
    | cons t ts => rfl

/-- Witness for C7: both branches at concrete states — no tools gives the
bare base string, one tool descriptor gives the extended instructions. -/
theorem system_instructions_templating_witness :
    system_instructions ⟨"doc", []⟩ = "You are a helpful assistant." ∧
    system_instructions ⟨"doc", [[("name", .str "t")]]⟩ =
      "You are a helpful assistant." ++
        "\n\nThe user has defined the following tools that can be executed on the frontend.\nTo execute one of these, use the `execute_frontend_tool` tool with the exact name and arguments.\nAvailable Frontend Tools:\n" ++
        json_dumps_indent2 [[("name", .str "t")]] :=
  ⟨system_instructions_templating.1 ⟨"doc", []⟩ rfl,
    system_instructions_templating.2 ⟨"doc", [[("name", .str "t")]]⟩
      (List.cons_ne_nil _ _)⟩

/-- Modelled from the spec: `AGUIAdapter.encode_stream` is adapter-library
code not present in this repository.  Per the spec it consumes the agent's
internal event sequence and "emits one encoded frame per internal event,
preserving emission order", a one-pass forward-only transformation — i.e.
the per-event encoder mapped over the event sequence. -/
def encode_stream {α β : Type} (encoder : α → β) (event_stream : List α) :
    List β :=
  event_stream.map encoder

/-- C5: the stream encoder emits exactly one encoded frame per internal
event (the output has the same length as the input) and the i-th frame on
the wire is the encoding of the i-th internal event, so order is preserved
with no reordering, batching, dropping or duplication. -/
theorem encode_stream_one_frame_per_event_in_order {α β : Type}
    (encoder : α → β) (event_stream : List α) :
    (encode_stream encoder event_stream).length = event_stream.length ∧
    ∀ i : Nat, (encode_stream encoder event_stream).get? i =
      (event_stream.get? i).map encoder := by
  refine ⟨List.length_map _ _, fun i => ?_⟩
  simp [encode_stream]
